import Mathlib

/-!
Shallow embedding of `src/hosting/app.py`: a FastAPI server that loads a
causal language model and its tokenizer once at startup and exposes
  GET  /       -> the Python set literal containing the string "Hello"
  POST /infer  -> builds a fixed prompt template from the JSON body fields
                  system_prompt and user_prompt (missing keys default to ""),
                  tokenizes it, generates at most 128 new tokens, decodes,
                  and returns the decoded text under the key "response".
The model runtime (tokenizer encode/decode, model generate) is external
library code; it is embedded as abstract fallible functions.
-/

namespace Hosting

/-- Parsed JSON value, as produced by the web framework from the request
body.  An integral JSON number parses to a Python `int`, carried here as
an `Int`; a non-integral one parses to a Python `float`, carried as the
decimal text that Python's `str()` yields for it (the IEEE-754
shortest-round-trip rendering itself is floating-point behaviour outside
this shallow embedding, so it is represented by its result).  An object is
an association list; following Python's `json.loads`, a duplicate key
keeps the LAST occurrence, which the lookup below implements by searching
the reversed list. -/
inductive Json where
  | null : Json
  | bool : Bool → Json
  | num : Int → Json
  | numf : String → Json
  | str : String → Json
  | arr : List Json → Json
  | obj : List (String × Json) → Json

/-- Whether the parsed JSON value is an object (a Python `dict`).  Only a
dict has the `.get` method; calling `.get` on any other value raises
`AttributeError`. -/
def Json.isObj : Json → Bool
  | .obj _ => true
  | _ => false

/-- Python `dict.get(k, default)` on the dict obtained from `json.loads`:
the last occurrence of a duplicate key wins. -/
def pyGet (kvs : List (String × Json)) (k : String) : Option Json :=
  (kvs.reverse.find? (fun p => p.1 == k)).map Prod.snd

/-- Hexadecimal digit character, lowercase, as Python prints escapes. -/
def hexDigit (n : Nat) : Char :=
  if n < 10 then Char.ofNat (48 + n) else Char.ofNat (87 + n)

/-- Two-digit lowercase hexadecimal rendering of a byte value. -/
def hexByte (n : Nat) : String :=
  String.mk [hexDigit (n / 16), hexDigit (n % 16)]

/-- Characterwise escaping used by Python `repr` on strings, for the
chosen quote character `q`: backslash, the quote, newline / carriage
return / tab by their mnemonic escapes, and every other non-printable
Latin-1 character (codes below 32, and 127 through 160, and the soft
hyphen 173) as a `\xNN` escape.  Non-printable codepoints above U+00FF,
which Python would render as `\uNNNN`, are left as themselves: tracking
Unicode printability classes is outside this embedding and no claim
exercises them. -/
def pyEscape (q : Char) (s : String) : String :=
  String.join (s.data.map (fun c =>
    if c = '\\' then "\\\\"
    else if c = q then "\\" ++ q.toString
    else if c = '\n' then "\\n"
    else if c = '\r' then "\\r"
    else if c = '\t' then "\\t"
    else if c.toNat < 32 || (127 ≤ c.toNat && c.toNat ≤ 160) || c.toNat = 173 then
      "\\x" ++ hexByte c.toNat
    else c.toString))

/-- Python `repr` of a string: single quotes, unless the string contains a
single quote and no double quote, in which case double quotes. -/
def pyReprStr (s : String) : String :=
  if s.contains '\x27' && !(s.contains '\"') then
    "\"" ++ pyEscape '\"' s ++ "\""
  else
    "\x27" ++ pyEscape '\x27' s ++ "\x27"

/-- Comma-space join, as Python prints list and dict elements. -/
def joinComma : List String → String
  | [] => ""
  | [x] => x
  | x :: xs => x ++ ", " ++ joinComma xs

mutual

/-- Python `repr` of a parsed JSON value: `None`, `True`/`False`, decimal
integers, the decimal rendering of floats (for which `repr` and `str`
coincide), quoted strings, bracketed lists, braced dicts. -/
def pyRepr : Json → String
  | .null => "None"
  | .bool true => "True"
  | .bool false => "False"
  | .num n => toString n
  | .numf r => r
  | .str s => pyReprStr s
  | .arr xs => "[" ++ joinComma (pyReprList xs) ++ "]"
  | .obj kvs => "\x7b" ++ joinComma (pyReprObj kvs) ++ "\x7d"

/-- The `repr` of each element of a Python list. -/
def pyReprList : List Json → List String
  | [] => []
  | x :: xs => pyRepr x :: pyReprList xs

/-- The `repr` of each `key: value` entry of a Python dict. -/
def pyReprObj : List (String × Json) → List String
  | [] => []
  | (k, v) :: kvs => (pyReprStr k ++ ": " ++ pyRepr v) :: pyReprObj kvs

end

/-- Python `str` of a parsed JSON value, as applied by f-string
interpolation: a `str` passes through unchanged, every other value renders
via `repr` (`str(None) = "None"`, `str(True) = "True"`, ...). -/
def pyStr : Json → String
  | .str s => s
  | v => pyRepr v

/-- The f-string on line 21 of `app.py`:
`f"System-Prompt: {system_prompt}\nUser-Prompt: {user_prompt}\n Assistant-Answer: "`. -/
def buildPrompt (system_prompt user_prompt : String) : String :=
  s!"System-Prompt: {system_prompt}\nUser-Prompt: {user_prompt}\n Assistant-Answer: "

/-- The string interpolated for a prompt field: `str(data.get(k, ""))`,
i.e. the Python rendering of the stored value, or `""` when the key is
absent. -/
def fieldStr (kvs : List (String × Json)) (k : String) : String :=
  match pyGet kvs k with
  | some v => pyStr v
  | none => ""

/-- Python exceptions that can escape the handler uncaught. -/
inductive PyError where
  | jsonDecodeError : PyError
  | attributeError : PyError
  | runtimeError : String → PyError
deriving DecidableEq, Repr

/-- Arguments of the single `model.generate` call: the prompt text fed to
the tokenizer and the `max_new_tokens` cap. -/
structure GenCall where
  prompt : String
  maxNewTokens : Nat
deriving DecidableEq, Repr

/-- Lines 18-21 of `app.py`, up to (and determining) the generation call:
`data = await request.json()` (`none` models a body that is not valid
JSON, on which the parser raises), then `data.get("system_prompt", "")`
and `data.get("user_prompt", "")` (raising `AttributeError` when `data` is
not a dict), then the f-string.  Line 23 fixes `max_new_tokens=128`. -/
def inferPrompt : Option Json → Except PyError GenCall
  | none => .error .jsonDecodeError
  | some (.obj kvs) =>
      .ok ⟨buildPrompt (fieldStr kvs "system_prompt") (fieldStr kvs "user_prompt"), 128⟩
  | some _ => .error .attributeError

/-- The tokenizer object loaded by `AutoTokenizer.from_pretrained`:
external library code, embedded as abstract fallible encode/decode. -/
structure Tokenizer where
  encode : String → Except PyError (List Nat)
  decode : List Nat → Except PyError String

/-- The model object loaded by `AutoModelForCausalLM.from_pretrained`:
external library code, embedded as an abstract fallible `generate` taking
the input token sequence and `max_new_tokens`, returning the full output
sequence. -/
structure Model where
  generate : List Nat → Nat → Except PyError (List Nat)

/-- The whole `infer` handler (lines 16-25 of `app.py`): build the
generation call from the parsed body, tokenize, generate, decode, and
return the decoded text (the value under the key `"response"`).  There is
no try/except in the source, so each step's error propagates past the
remaining steps. -/
def infer (tok : Tokenizer) (model : Model) (body : Option Json) : Except PyError String :=
  match inferPrompt body with
  | .error e => .error e
  | .ok call =>
      match tok.encode call.prompt with
      | .error e => .error e
      | .ok toks =>
          match model.generate toks call.maxNewTokens with
          | .error e => .error e
          | .ok outs => tok.decode outs

/-- The `hello` handler (lines 12-14 of `app.py`): `return {"Hello"}`, a
Python set literal holding the one string `"Hello"`. -/
def hello : Finset String := {"Hello"}

/-- The hardcoded checkpoint name on line 8 of `app.py`. -/
def model_name : String := "HuggingFaceTB/SmolLM2-135M-Instruct"

/-- The process-wide globals bound at module load: the tokenizer and the
model (lines 9-10 of `app.py`). -/
structure AppState where
  tokenizer : Tokenizer
  model : Model

/-- A request dispatched by the framework to one of the two routes. -/
inductive RequestMsg where
  | getRoot : RequestMsg
  | postInfer : Option Json → RequestMsg

/-- A response as returned to the framework. -/
inductive Response where
  | root : Finset String → Response
  | inferOk : String → Response
  | failure : PyError → Response

/-- Response of the `/infer` route: the decoded text wrapped under the
key `"response"` on success, the framework's default error response when
an exception escapes the handler. -/
def routeInfer (st : AppState) (body : Option Json) : Response :=
  match infer st.tokenizer st.model body with
  | .ok s => .inferOk s
  | .error e => .failure e

/-- Dispatch of one request.  Neither handler contains a `global`
statement or any assignment to `model` or `tokenizer`, so the state after
the request is the state before it. -/
def handleRequest (st : AppState) : RequestMsg → Response × AppState
  | .getRoot => (.root hello, st)
  | .postInfer body => (routeInfer st body, st)

/-- Sequential handling of a list of requests, threading the process-wide
state. -/
def runRequests : AppState → List RequestMsg → List Response × AppState
  | st, [] => ([], st)
  | st, r :: rs =>
      let p := handleRequest st r
      let q := runRequests p.2 rs
      (p.1 :: q.1, q.2)

/-- Process startup and serving (lines 8-10 and 27-28 of `app.py`): the
tokenizer and the model are loaded from `model_name` once, at module load,
before `uvicorn.run` starts accepting requests; then the requests are
handled against that state. -/
def startServer (loadTokenizer : String → Tokenizer) (loadModel : String → Model)
    (reqs : List RequestMsg) : List Response × AppState :=
  runRequests ⟨loadTokenizer model_name, loadModel model_name⟩ reqs

/-! Helper lemmas shared by the claim theorems. -/

/-- Unfolding of the f-string: the prompt is the plain concatenation of
the two inputs with the fixed labels. -/
theorem buildPrompt_eq (a b : String) :
    buildPrompt a b =
      "System-Prompt: " ++ a ++ "\nUser-Prompt: " ++ b ++ "\n Assistant-Answer: " := rfl

/-- Neither route handler changes the process-wide state. -/
theorem handleRequest_state (st : AppState) (r : RequestMsg) :
    (handleRequest st r).2 = st := by
  cases r <;> rfl

/-- Handling any sequence of requests leaves the process-wide state
untouched. -/
theorem runRequests_state (st : AppState) (reqs : List RequestMsg) :
    (runRequests st reqs).2 = st := by
  induction reqs generalizing st with
  | nil => rfl
  | cons r rs ih => simp [runRequests, ih, handleRequest_state]

/-! Claim theorems. -/

/-- Claim C1: for every pair of strings `S` and `U` given as the
`system_prompt` and `user_prompt` fields, the infer handler builds exactly
the prompt `"System-Prompt: " ++ S ++ "\nUser-Prompt: " ++ U ++
"\n Assistant-Answer: "` (space before the label, trailing space), with no
escaping, validation, or length limit applied to `S` or `U`. -/
theorem prompt_built_exactly (S U : String) :
    inferPrompt (some (.obj [("system_prompt", .str S), ("user_prompt", .str U)])) =
      .ok ⟨"System-Prompt: " ++ S ++ "\nUser-Prompt: " ++ U ++ "\n Assistant-Answer: ", 128⟩ :=
  rfl

/-- Claim C2: for every JSON object body, the prompt-building part of the
infer handler succeeds (no error is raised); each of `system_prompt` and
`user_prompt` contributes the empty string when absent; in particular the
body `{}` succeeds and builds the prompt from two empty strings. -/
theorem missing_fields_default_to_empty (kvs : List (String × Json)) :
    (∃ call, inferPrompt (some (.obj kvs)) = Except.ok call) ∧
    (pyGet kvs "system_prompt" = none → fieldStr kvs "system_prompt" = "") ∧
    (pyGet kvs "user_prompt" = none → fieldStr kvs "user_prompt" = "") ∧
    inferPrompt (some (.obj [])) = .ok ⟨buildPrompt "" "", 128⟩ := by
  refine ⟨⟨_, rfl⟩, ?_, ?_, rfl⟩ <;> intro h <;> simp [fieldStr, h]

/-- Witness for C2 at the concrete body `{}`. -/
theorem missing_fields_default_to_empty_witness :
    fieldStr [] "system_prompt" = "" ∧ fieldStr [] "user_prompt" = "" ∧
    inferPrompt (some (.obj [])) = .ok ⟨buildPrompt "" "", 128⟩ :=
  ⟨(missing_fields_default_to_empty []).2.1 rfl,
   (missing_fields_default_to_empty []).2.2.1 rfl,
   (missing_fields_default_to_empty []).2.2.2⟩

/-- Claim C3: every generation call issued by the infer handler carries a
maximum-new-tokens cap of exactly 128, for every request body. -/
theorem generation_cap_always_128 (body : Option Json) (call : GenCall)
    (h : inferPrompt body = .ok call) : call.maxNewTokens = 128 := by
  cases body with
  | none => simp [inferPrompt] at h
  | some j =>
      cases j <;> simp [inferPrompt] at h
      rw [← h]

/-- Witness for C3 at the concrete body `{}`. -/
theorem generation_cap_always_128_witness :
    inferPrompt (some (.obj [])) = .ok ⟨buildPrompt "" "", 128⟩ ∧
    (⟨buildPrompt "" "", 128⟩ : GenCall).maxNewTokens = 128 :=
  ⟨rfl, generation_cap_always_128 (some (.obj [])) ⟨buildPrompt "" "", 128⟩ rfl⟩

/-- Claim C4: a body that is not valid JSON makes the handler fail with
the JSON-parse error instead of defaulting the fields, and, the handler
containing no try/except, every tokenizer, generation, or decode error
propagates out of the handler unchanged. -/
theorem uncaught_errors_propagate (tok : Tokenizer) (model : Model) :
    (infer tok model none = .error .jsonDecodeError) ∧
    (∀ body call e, inferPrompt body = .ok call → tok.encode call.prompt = .error e →
        infer tok model body = .error e) ∧
    (∀ body call toks e, inferPrompt body = .ok call → tok.encode call.prompt = .ok toks →
        model.generate toks call.maxNewTokens = .error e → infer tok model body = .error e) ∧
    (∀ body call toks outs e, inferPrompt body = .ok call → tok.encode call.prompt = .ok toks →
        model.generate toks call.maxNewTokens = .ok outs → tok.decode outs = .error e →
        infer tok model body = .error e) := by
  refine ⟨rfl, ?_, ?_, ?_⟩ <;> intros <;> simp_all [infer]

/-- Runtime whose every operation raises, for exercising error
propagation. -/
def stubTokenizer : Tokenizer where
  encode := fun _ => .error (.runtimeError ("tokenize failed"))
  decode := fun _ => .error (.runtimeError ("decode failed"))

/-- Model whose generation raises. -/
def stubModel : Model where
  generate := fun _ _ => .error (.runtimeError ("generate failed"))

/-- Witness for C4: a malformed body and a raising tokenizer both make the
handler fail with the original error. -/
theorem uncaught_errors_propagate_witness :
    infer stubTokenizer stubModel none = .error .jsonDecodeError ∧
    infer stubTokenizer stubModel (some (.obj [])) =
      .error (.runtimeError ("tokenize failed")) :=
  ⟨(uncaught_errors_propagate stubTokenizer stubModel).1,
   (uncaught_errors_propagate stubTokenizer stubModel).2.1
     (some (.obj [])) ⟨buildPrompt "" "", 128⟩ _ rfl rfl⟩

/-- Claim C5: whenever generation succeeds and the decoded output echoes
the prompt (the decode step does not strip the input portion), the
returned `response` string is non-empty: the prompt itself is non-empty
even when both input fields are empty, because the fixed template labels
are always present. -/
theorem successful_response_nonempty (tok : Tokenizer) (model : Model) (body : Option Json)
    (s : String)
    (hecho : ∀ call, inferPrompt body = .ok call → ∃ t, s = call.prompt ++ t)
    (hok : infer tok model body = .ok s) : s ≠ "" := by
  cases hcall : inferPrompt body with
  | error e => simp [infer, hcall] at hok
  | ok call =>
      obtain ⟨t, hst⟩ := hecho call hcall
      have hprompt : ∃ a b, call.prompt = buildPrompt a b := by
        cases body with
        | none => simp [inferPrompt] at hcall
        | some j =>
            cases j <;> simp [inferPrompt] at hcall
            exact ⟨_, _, by rw [← hcall]⟩
      obtain ⟨a, b, hab⟩ := hprompt
      intro hs
      rw [hs] at hst
      have hlen := congrArg String.length hst
      have hA : ("System-Prompt: " : String).length = 15 := rfl
      have hB : ("\nUser-Prompt: " : String).length = 14 := rfl
      have hC : ("\n Assistant-Answer: " : String).length = 20 := rfl
      simp [hab, buildPrompt_eq, String.length_append, hA, hB, hC] at hlen
      omega

/-- Tokenizer that encodes a string as its character codes and decodes by
the inverse, so that decoding echoes the input exactly. -/
def echoTokenizer : Tokenizer where
  encode := fun p => .ok (p.data.map Char.toNat)
  decode := fun ts => .ok (String.mk (ts.map Char.ofNat))

/-- Model that returns its input sequence unchanged. -/
def echoModel : Model where
  generate := fun ts _ => .ok ts

/-- Witness for C5: with the echoing runtime and the body `{}`, the
returned string is the bare template, which is non-empty. -/
theorem successful_response_nonempty_witness :
    ("System-Prompt: \nUser-Prompt: \n Assistant-Answer: " : String) ≠ "" := by
  refine successful_response_nonempty echoTokenizer echoModel (some (.obj [])) _ ?_ rfl
  intro call h
  injection h with h1
  exact ⟨"", by rw [← h1]; decide⟩

/-- Claim C6: a GET on the root path returns the fixed payload, the set
literal holding exactly the string `"Hello"`, whatever the current state
(hence whatever requests were handled before), it leaves the state
unchanged, and it cannot fail. -/
theorem root_returns_constant_hello (st : AppState) :
    handleRequest st .getRoot = (.root {"Hello"}, st) ∧
    hello = {"Hello"} ∧ ("Hello" : String) ∈ hello ∧ hello.card = 1 :=
  ⟨rfl, rfl, by decide, rfl⟩

/-- Witness for C6 at a concrete state. -/
theorem root_returns_constant_hello_witness :
    handleRequest ⟨stubTokenizer, stubModel⟩ .getRoot =
      (.root {"Hello"}, ⟨stubTokenizer, stubModel⟩) :=
  (root_returns_constant_hello ⟨stubTokenizer, stubModel⟩).1

/-- Claim C7: the model and tokenizer are loaded from the hardcoded
checkpoint name once, before any request is handled, and after any
sequence of handled requests the process-wide state still holds exactly
the objects loaded at startup: no handler rebinds or mutates them. -/
theorem globals_unchanged_after_requests (loadTokenizer : String → Tokenizer)
    (loadModel : String → Model) (reqs : List RequestMsg) :
    (startServer loadTokenizer loadModel reqs).2 =
      ⟨loadTokenizer model_name, loadModel model_name⟩ :=
  runRequests_state _ reqs

/-- Claim C8: two JSON object bodies that render the same effective values
for `system_prompt` and `user_prompt` (an absent key rendering as the
empty string) produce the identical prompt and the identical generation
behaviour: keys other than these two have no effect on the handler. -/
theorem extra_keys_have_no_effect (kvs kvs2 : List (String × Json))
    (hs : fieldStr kvs "system_prompt" = fieldStr kvs2 "system_prompt")
    (hu : fieldStr kvs "user_prompt" = fieldStr kvs2 "user_prompt") :
    inferPrompt (some (.obj kvs)) = inferPrompt (some (.obj kvs2)) ∧
    ∀ tok model, infer tok model (some (.obj kvs)) = infer tok model (some (.obj kvs2)) := by
  have h : inferPrompt (some (.obj kvs)) = inferPrompt (some (.obj kvs2)) := by
    simp [inferPrompt, hs, hu]
  exact ⟨h, fun tok model => by simp [infer, h]⟩

/-- Witness for C8: a body with only an unrelated extra key behaves like
the empty body. -/
theorem extra_keys_have_no_effect_witness :
    inferPrompt (some (.obj [("extra", Json.num 1)])) = inferPrompt (some (.obj [])) :=
  (extra_keys_have_no_effect [("extra", Json.num 1)] [] rfl rfl).1

/-- Claim C9: for every object body, the handler interpolates the Python
string rendering of whatever value is stored under `system_prompt` and
under `user_prompt`, without rejecting or type-checking it: a present key
contributes exactly `pyStr` of its value, whatever the value's kind, a
JSON null appearing as the text `None` (and a true as `True`, an integer
and a float as their decimal texts, an empty array as `[]`, an empty
object as braces). -/
theorem non_string_values_interpolated :
    (∀ kvs, inferPrompt (some (.obj kvs)) =
        .ok ⟨buildPrompt (fieldStr kvs "system_prompt") (fieldStr kvs "user_prompt"), 128⟩) ∧
    (∀ kvs k v, pyGet kvs k = some v → fieldStr kvs k = pyStr v) ∧
    pyStr .null = "None" ∧ pyStr (.bool true) = "True" ∧
    pyStr (.num 7) = "7" ∧ pyStr (.numf "1.5") = "1.5" ∧
    pyStr (.arr []) = "[]" ∧ pyStr (.obj []) = "\x7b\x7d" := by
  refine ⟨fun kvs => rfl, ?_, rfl, rfl, rfl, rfl, rfl, rfl⟩
  intro kvs k v h
  simp [fieldStr, h]

/-- Witness for C9 at the concrete body mapping `user_prompt` to null:
the rendered field is the text `None` and the prompt embeds it. -/
theorem non_string_values_interpolated_witness :
    fieldStr [("user_prompt", Json.null)] "user_prompt" = "None" ∧
    inferPrompt (some (.obj [("user_prompt", Json.null)])) =
      .ok ⟨buildPrompt "" "None", 128⟩ := by
  constructor
  · rw [non_string_values_interpolated.2.1 [("user_prompt", Json.null)] "user_prompt"
      Json.null rfl]
    rfl
  · rw [non_string_values_interpolated.1 [("user_prompt", Json.null)]]
    rfl

/-- Claim C10: a body that is valid JSON but not a JSON object makes the
handler raise (the `.get` lookup fails on the non-dict value) before any
prompt is built: no generation is invoked — the outcome is the same error
for every runtime — and no response body is produced. -/
theorem non_object_body_raises (j : Json) (h : j.isObj = false) :
    inferPrompt (some j) = .error .attributeError ∧
    ∀ tok model, infer tok model (some j) = .error .attributeError := by
  cases j <;> simp_all [Json.isObj, inferPrompt, infer]

/-- Witness for C10 at the concrete body `[]`. -/
theorem non_object_body_raises_witness :
    inferPrompt (some (Json.arr [])) = .error .attributeError :=
  (non_object_body_raises (Json.arr []) rfl).1

end Hosting
